import Mathlib

set_option maxHeartbeats 1000000

/- Verification development for the connector migration scripts
   (migrate-to-bq-v2-sink.py and migrate-to-http-v2-sink.py): a shallow
   embedding of the configuration transformation code and of the token
   refresh preamble of the remote client functions, with theorems about
   the documented behaviour. -/

/-- Values appearing in connector configurations: JSON strings and integers
(the scripts build configurations whose values are strings except for the
integer default 1 used for the tasks.max key). -/
inductive Value where
  | str (s : String)
  | int (n : Int)
deriving DecidableEq, Repr

/-- A Python dict with string keys, modelled as an insertion ordered
association list. -/
abbrev Cfg := List (String × Value)

/-- Python key read d[k] / d.get(k): the value at the first matching key
(Python dicts never hold a key twice). -/
def Cfg.lookup : Cfg → String → Option Value
  | [], _ => none
  | p :: rest, k => if p.1 = k then some p.2 else Cfg.lookup rest k

/-- Python membership test: k in d. -/
def Cfg.containsKey (c : Cfg) (k : String) : Bool :=
  (Cfg.lookup c k).isSome

/-- Python assignment d[k] = v: overwrite the entry when the key is present,
otherwise append a new entry at the end. -/
def Cfg.insert (c : Cfg) (k : String) (v : Value) : Cfg :=
  if Cfg.containsKey c k then
    c.map (fun p => if p.1 = k then (k, v) else p)
  else
    c ++ [(k, v)]

/-- Python d.get(k, default). -/
def Cfg.getD (c : Cfg) (k : String) (d : Value) : Value :=
  (Cfg.lookup c k).getD d

/-- Python str.lower(), on the ASCII strings the scripts compare
(case-insensitive true and false flags). -/
def pyLower (s : String) : String :=
  String.mk (s.data.map Char.toLower)

/-- Splitting a character list at every occurrence of a separator character;
the empty list yields one empty part. -/
def splitOnChar (sep : Char) : List Char → List (List Char)
  | [] => [[]]
  | x :: xs =>
    match splitOnChar sep xs with
    | [] => [[]]
    | y :: ys => if x = sep then [] :: y :: ys else (x :: y) :: ys

/-- Python str.split(sep) for a one character separator: splits at every
occurrence, keeps empty parts, and yields one empty part for the empty
string. -/
def pySplit (s : String) (sep : Char) : List String :=
  (splitOnChar sep s.data).map String.mk

theorem Cfg.lookup_eq_none_iff (c : Cfg) (k : String) :
    Cfg.lookup c k = none ↔ ∀ p ∈ c, p.1 ≠ k := by
  induction c with
  | nil => simp [Cfg.lookup]
  | cons p rest ih =>
    by_cases h : p.1 = k <;> simp [Cfg.lookup, h, ih]

theorem Cfg.lookup_map_set (c : Cfg) (k : String) (v : Value)
    (h : (Cfg.lookup c k).isSome) :
    Cfg.lookup (c.map fun p => if p.1 = k then (k, v) else p) k = some v := by
  induction c with
  | nil => simp [Cfg.lookup] at h
  | cons p rest ih =>
    by_cases hp : p.1 = k
    · simp [Cfg.lookup, hp]
    · simp only [Cfg.lookup, hp, if_false] at h
      simpa [Cfg.lookup, hp] using ih h

theorem Cfg.lookup_map_set_ne (c : Cfg) (k k' : String) (v : Value)
    (h : k ≠ k') :
    Cfg.lookup (c.map fun p => if p.1 = k then (k, v) else p) k'
      = Cfg.lookup c k' := by
  induction c with
  | nil => simp [Cfg.lookup]
  | cons p rest ih =>
    by_cases hp : p.1 = k
    · have hpk : p.1 ≠ k' := by rw [hp]; exact h
      simp [Cfg.lookup, hp, hpk, h, Ne.symm h, ih]
    · by_cases hpk : p.1 = k' <;> simp [Cfg.lookup, hp, hpk, Ne.symm h, ih]

theorem Cfg.lookup_append_of_none (c : Cfg) (k k' : String) (v : Value)
    (h : Cfg.lookup c k' = none) :
    Cfg.lookup (c ++ [(k, v)]) k' = if k = k' then some v else none := by
  induction c with
  | nil => simp [Cfg.lookup]
  | cons p rest ih =>
    by_cases hp : p.1 = k'
    · simp [Cfg.lookup, hp] at h
    · simp only [Cfg.lookup, hp, if_false] at h
      simpa [Cfg.lookup, hp] using ih h

theorem Cfg.lookup_append_of_some (c : Cfg) (k k' : String) (v w : Value)
    (h : Cfg.lookup c k' = some w) :
    Cfg.lookup (c ++ [(k, v)]) k' = some w := by
  induction c with
  | nil => simp [Cfg.lookup] at h
  | cons p rest ih =>
    by_cases hp : p.1 = k'
    · simp only [Cfg.lookup, hp, if_true] at h
      simp [Cfg.lookup, hp, h]
    · simp only [Cfg.lookup, hp, if_false] at h
      simpa [Cfg.lookup, hp] using ih h

theorem Cfg.lookup_insert (c : Cfg) (k k' : String) (v : Value) :
    Cfg.lookup (Cfg.insert c k v) k'
      = if k = k' then some v else Cfg.lookup c k' := by
  unfold Cfg.insert Cfg.containsKey
  cases hl : Cfg.lookup c k with
  | some w =>
    simp only [hl, Option.isSome_some, if_true]
    by_cases hk : k = k'
    · subst hk
      rw [Cfg.lookup_map_set c k v (by simp [hl])]
      simp
    · rw [Cfg.lookup_map_set_ne c k k' v hk]
      simp [hk]
  | none =>
    simp only [hl, Option.isSome_none, Bool.false_eq_true, if_false]
    cases hl' : Cfg.lookup c k' with
    | some w =>
      have hk : k ≠ k' := by
        intro hkk
        rw [hkk, hl'] at hl
        exact Option.noConfusion hl
      rw [Cfg.lookup_append_of_some c k k' v w hl']
      simp [hk]
    | none =>
      exact Cfg.lookup_append_of_none c k k' v hl'

theorem Cfg.lookup_insert_self (c : Cfg) (k : String) (v : Value) :
    Cfg.lookup (Cfg.insert c k v) k = some v := by
  simp [Cfg.lookup_insert]

theorem Cfg.lookup_insert_ne (c : Cfg) (k k' : String) (v : Value)
    (h : k ≠ k') :
    Cfg.lookup (Cfg.insert c k v) k' = Cfg.lookup c k' := by
  simp [Cfg.lookup_insert, h]

theorem Cfg.containsKey_insert_of (c : Cfg) (k k' : String) (v : Value)
    (h : Cfg.containsKey c k' = true) :
    Cfg.containsKey (Cfg.insert c k v) k' = true := by
  unfold Cfg.containsKey at *
  rw [Cfg.lookup_insert]
  by_cases hk : k = k' <;> simp [hk, h]

theorem Cfg.entry_of_insert (c : Cfg) (k : String) (v : Value) :
    ∀ p ∈ Cfg.insert c k v, p.1 = k → p.2 = v := by
  unfold Cfg.insert Cfg.containsKey
  cases hl : Cfg.lookup c k with
  | some w =>
    simp only [hl, Option.isSome_some, if_true]
    intro p hp hpk
    rcases List.mem_map.mp hp with ⟨q, hq, hqe⟩
    by_cases hq1 : q.1 = k
    · simp only [hq1, if_true] at hqe
      rw [← hqe]
    · simp only [hq1, if_false] at hqe
      rw [← hqe] at hpk
      exact absurd hpk hq1
  | none =>
    simp only [hl, Option.isSome_none, Bool.false_eq_true, if_false]
    intro p hp hpk
    rcases List.mem_append.mp hp with hp | hp
    · have := (Cfg.lookup_eq_none_iff c k).mp hl p hp
      exact absurd hpk this
    · simp at hp
      rw [hp]

theorem Cfg.map_set_eq_self (c : Cfg) (k : String) (v : Value)
    (h : ∀ p ∈ c, p.1 = k → p.2 = v) :
    (c.map fun p => if p.1 = k then (k, v) else p) = c := by
  induction c with
  | nil => rfl
  | cons p rest ih =>
    by_cases hp : p.1 = k
    · have hv : p.2 = v := h p (by simp) hp
      have hpv : (if p.1 = k then ((k, v) : String × Value) else p) = p := by
        rw [if_pos hp, ← hp, ← hv]
      simp only [List.map_cons, hpv]
      rw [ih (fun q hq => h q (List.mem_cons_of_mem _ hq))]
    · simp only [List.map_cons, hp, if_false]
      rw [ih (fun q hq => h q (List.mem_cons_of_mem _ hq))]

theorem Cfg.insert_insert_same (c : Cfg) (k : String) (v : Value) :
    Cfg.insert (Cfg.insert c k v) k v = Cfg.insert c k v := by
  have hc : Cfg.containsKey (Cfg.insert c k v) k = true := by
    unfold Cfg.containsKey
    rw [Cfg.lookup_insert_self]
    rfl
  rw [show Cfg.insert (Cfg.insert c k v) k v
        = if Cfg.containsKey (Cfg.insert c k v) k then
            (Cfg.insert c k v).map (fun p => if p.1 = k then (k, v) else p)
          else Cfg.insert c k v ++ [(k, v)] from rfl, hc]
  simp only [if_true]
  exact Cfg.map_set_eq_self _ k v (Cfg.entry_of_insert c k v)

/-- The loop pattern: for src_key, dst_key in mapping.items(), copy
src[src_key] to acc[dst_key] when src_key is present in src. Used for the
config_mapping loop of the BigQuery script and the v1_to_v2_mapping loop of
the HTTP script. -/
def copyMapped (src : Cfg) (mapping : List (String × String)) (acc : Cfg) : Cfg :=
  mapping.foldl
    (fun acc p =>
      match Cfg.lookup src p.1 with
      | some v => Cfg.insert acc p.2 v
      | none => acc)
    acc

/-- The loop pattern: for key in keys, copy src[key] to acc[key] when key is
present in src. Used for the common_configs loops of both scripts. -/
def copyCommon (src : Cfg) (keys : List String) (acc : Cfg) : Cfg :=
  keys.foldl
    (fun acc k =>
      match Cfg.lookup src k with
      | some v => Cfg.insert acc k v
      | none => acc)
    acc

/-- The loop pattern: for key, value in defaults.items(), set acc[key] = value
only when key is not already present. Used for the storage_defaults loop of
transform_legacy_to_storage and the defaults loop of apply_defaults. -/
def fillDefaults (defaults : List (String × Value)) (c : Cfg) : Cfg :=
  defaults.foldl
    (fun acc p => if Cfg.containsKey acc p.1 then acc else Cfg.insert acc p.1 p.2)
    c

/-- The loop pattern: for key, value in src.items(), copy the entry into acc
when the key satisfies a filter. Used for the additional-configurations loop
of transform_legacy_to_storage. -/
def copyFiltered (filter : String → Bool) (src acc : Cfg) : Cfg :=
  src.foldl
    (fun acc p => if filter p.1 then Cfg.insert acc p.1 p.2 else acc)
    acc

theorem copyMapped_cons (src : Cfg) (p : String × String)
    (rest : List (String × String)) (acc : Cfg) :
    copyMapped src (p :: rest) acc
      = copyMapped src rest
          (match Cfg.lookup src p.1 with
           | some v => Cfg.insert acc p.2 v
           | none => acc) := by
  rfl

theorem copyMapped_lookup_ne (src : Cfg) (mapping : List (String × String))
    (acc : Cfg) (k : String) (h : ∀ p ∈ mapping, p.2 ≠ k) :
    Cfg.lookup (copyMapped src mapping acc) k = Cfg.lookup acc k := by
  induction mapping generalizing acc with
  | nil => rfl
  | cons p rest ih =>
    rw [copyMapped_cons]
    cases hv : Cfg.lookup src p.1 with
    | some v =>
      rw [ih _ (fun q hq => h q (List.mem_cons_of_mem _ hq))]
      exact Cfg.lookup_insert_ne acc p.2 k v (h p (List.mem_cons_self _ _))
    | none =>
      exact ih _ (fun q hq => h q (List.mem_cons_of_mem _ hq))

theorem copyMapped_lookup_pair (src : Cfg) (mapping : List (String × String))
    (acc : Cfg) (s t : String) (v : Value)
    (hnd : (mapping.map Prod.snd).Nodup) (hmem : (s, t) ∈ mapping)
    (hsrc : Cfg.lookup src s = some v) :
    Cfg.lookup (copyMapped src mapping acc) t = some v := by
  induction mapping generalizing acc with
  | nil => cases hmem
  | cons p rest ih =>
    simp only [List.map_cons, List.nodup_cons] at hnd
    rcases List.mem_cons.mp hmem with rfl | hme
    · simp only [copyMapped_cons, hsrc]
      rw [copyMapped_lookup_ne src rest _ t
            (fun q hq hq2 => hnd.1 (by
              have hqm : q.2 ∈ List.map Prod.snd rest :=
                List.mem_map_of_mem Prod.snd hq
              rw [hq2] at hqm
              exact hqm))]
      exact Cfg.lookup_insert_self acc t v
    · rw [copyMapped_cons]
      cases hv : Cfg.lookup src p.1 with
      | some w => exact ih _ hnd.2 hme
      | none => exact ih _ hnd.2 hme

theorem copyCommon_cons (src : Cfg) (k : String) (rest : List String)
    (acc : Cfg) :
    copyCommon src (k :: rest) acc
      = copyCommon src rest
          (match Cfg.lookup src k with
           | some v => Cfg.insert acc k v
           | none => acc) := by
  rfl

theorem copyCommon_lookup_ne (src : Cfg) (keys : List String) (acc : Cfg)
    (k : String) (h : k ∉ keys) :
    Cfg.lookup (copyCommon src keys acc) k = Cfg.lookup acc k := by
  induction keys generalizing acc with
  | nil => rfl
  | cons k' rest ih =>
    have hk' : k' ≠ k := fun he => h (he ▸ List.mem_cons_self _ _)
    have hrest : k ∉ rest := fun hm => h (List.mem_cons_of_mem _ hm)
    rw [copyCommon_cons]
    cases hv : Cfg.lookup src k' with
    | some v =>
      rw [ih _ hrest]
      exact Cfg.lookup_insert_ne acc k' k v hk'
    | none => exact ih _ hrest

theorem fillDefaults_cons (p : String × Value) (rest : List (String × Value))
    (c : Cfg) :
    fillDefaults (p :: rest) c
      = fillDefaults rest
          (if Cfg.containsKey c p.1 then c else Cfg.insert c p.1 p.2) := by
  rfl

theorem fillDefaults_lookup_of_some (defaults : List (String × Value))
    (c : Cfg) (k : String) (v : Value) (h : Cfg.lookup c k = some v) :
    Cfg.lookup (fillDefaults defaults c) k = some v := by
  induction defaults generalizing c with
  | nil => exact h
  | cons p rest ih =>
    rw [fillDefaults_cons]
    by_cases hc : Cfg.containsKey c p.1
    · rw [if_pos hc]; exact ih c h
    · rw [if_neg hc]
      have hne : p.1 ≠ k := by
        intro he
        rw [he] at hc
        exact hc (by unfold Cfg.containsKey; rw [h]; rfl)
      exact ih _ (by rw [Cfg.lookup_insert_ne c p.1 k p.2 hne]; exact h)

theorem fillDefaults_lookup_ne (defaults : List (String × Value)) (c : Cfg)
    (k : String) (h : ∀ p ∈ defaults, p.1 ≠ k) :
    Cfg.lookup (fillDefaults defaults c) k = Cfg.lookup c k := by
  induction defaults generalizing c with
  | nil => rfl
  | cons p rest ih =>
    rw [fillDefaults_cons]
    by_cases hc : Cfg.containsKey c p.1
    · rw [if_pos hc]; exact ih _ (fun q hq => h q (List.mem_cons_of_mem _ hq))
    · rw [if_neg hc]
      rw [ih _ (fun q hq => h q (List.mem_cons_of_mem _ hq))]
      exact Cfg.lookup_insert_ne c p.1 k p.2 (h p (List.mem_cons_self _ _))

theorem fillDefaults_lookup_absent (defaults : List (String × Value))
    (c : Cfg) (k : String) (d : Value)
    (hnd : (defaults.map Prod.fst).Nodup) (hmem : (k, d) ∈ defaults)
    (h : Cfg.lookup c k = none) :
    Cfg.lookup (fillDefaults defaults c) k = some d := by
  induction defaults generalizing c with
  | nil => cases hmem
  | cons p rest ih =>
    simp only [List.map_cons, List.nodup_cons] at hnd
    rcases List.mem_cons.mp hmem with rfl | hme
    · have hck : ¬ Cfg.containsKey c k = true := by
        unfold Cfg.containsKey
        rw [h]
        simp
      simp only [fillDefaults_cons, hck, if_false]
      rw [fillDefaults_lookup_ne rest _ k
            (fun q hq hq2 => hnd.1 (by
              have hqm : q.1 ∈ List.map Prod.fst rest :=
                List.mem_map_of_mem Prod.fst hq
              rw [hq2] at hqm
              exact hqm))]
      exact Cfg.lookup_insert_self c k d
    · have hk : p.1 ≠ k := by
        intro he
        exact hnd.1 (he ▸ List.mem_map_of_mem Prod.fst hme)
      rw [fillDefaults_cons]
      by_cases hc : Cfg.containsKey c p.1
      · rw [if_pos hc]; exact ih c hnd.2 hme h
      · rw [if_neg hc]
        exact ih _ hnd.2 hme (by rw [Cfg.lookup_insert_ne c p.1 k p.2 hk]; exact h)

theorem fillDefaults_isSome (defaults : List (String × Value)) (c : Cfg)
    (k : String) (d : Value)
    (hnd : (defaults.map Prod.fst).Nodup) (hmem : (k, d) ∈ defaults) :
    (Cfg.lookup (fillDefaults defaults c) k).isSome = true := by
  cases h : Cfg.lookup c k with
  | some v => rw [fillDefaults_lookup_of_some defaults c k v h]; rfl
  | none => rw [fillDefaults_lookup_absent defaults c k d hnd hmem h]; rfl

theorem fillDefaults_eq_self (defaults : List (String × Value)) (c : Cfg)
    (h : ∀ p ∈ defaults, Cfg.containsKey c p.1 = true) :
    fillDefaults defaults c = c := by
  induction defaults with
  | nil => rfl
  | cons p rest ih =>
    rw [fillDefaults_cons, if_pos (h p (List.mem_cons_self _ _))]
    exact ih (fun q hq => h q (List.mem_cons_of_mem _ hq))

theorem copyFiltered_cons (filter : String → Bool) (p : String × Value)
    (rest : List (String × Value)) (acc : Cfg) :
    copyFiltered filter (p :: rest) acc
      = copyFiltered filter rest
          (if filter p.1 then Cfg.insert acc p.1 p.2 else acc) := by
  rfl

theorem copyFiltered_lookup_of_not_filter (filter : String → Bool)
    (src acc : Cfg) (k : String) (h : filter k = false) :
    Cfg.lookup (copyFiltered filter src acc) k = Cfg.lookup acc k := by
  induction src generalizing acc with
  | nil => rfl
  | cons p rest ih =>
    rw [copyFiltered_cons]
    by_cases hf : filter p.1
    · have hne : p.1 ≠ k := by
        intro he
        rw [he, h] at hf
        exact Bool.noConfusion hf
      rw [if_pos hf, ih _]
      exact Cfg.lookup_insert_ne acc p.1 k p.2 hne
    · rw [if_neg hf]; exact ih _

theorem copyFiltered_lookup_of_not_mem (filter : String → Bool)
    (src acc : Cfg) (k : String) (h : ∀ p ∈ src, p.1 ≠ k) :
    Cfg.lookup (copyFiltered filter src acc) k = Cfg.lookup acc k := by
  induction src generalizing acc with
  | nil => rfl
  | cons p rest ih =>
    rw [copyFiltered_cons]
    by_cases hf : filter p.1
    · rw [if_pos hf, ih _ (fun q hq => h q (List.mem_cons_of_mem _ hq))]
      exact Cfg.lookup_insert_ne acc p.1 k p.2 (h p (List.mem_cons_self _ _))
    · rw [if_neg hf]; exact ih _ (fun q hq => h q (List.mem_cons_of_mem _ hq))

theorem copyFiltered_lookup_set (filter : String → Bool) (src acc : Cfg)
    (k : String) (v : Value) (hnd : (src.map Prod.fst).Nodup)
    (hsrc : Cfg.lookup src k = some v) (hf : filter k = true) :
    Cfg.lookup (copyFiltered filter src acc) k = some v := by
  induction src generalizing acc with
  | nil => cases hsrc
  | cons p rest ih =>
    simp only [List.map_cons, List.nodup_cons] at hnd
    rw [copyFiltered_cons]
    by_cases hp : p.1 = k
    · have hv : p.2 = v := by
        rw [show Cfg.lookup (p :: rest) k
              = if p.1 = k then some p.2 else Cfg.lookup rest k from rfl,
            if_pos hp] at hsrc
        exact Option.some.inj hsrc
      have hfp : filter p.1 = true := by rw [hp]; exact hf
      rw [if_pos hfp]
      rw [copyFiltered_lookup_of_not_mem filter rest _ k
            (fun q hq hq2 => hnd.1 (hp ▸ hq2 ▸ List.mem_map_of_mem Prod.fst hq))]
      rw [hp, hv]
      exact Cfg.lookup_insert_self acc k v
    · rw [show Cfg.lookup (p :: rest) k
            = if p.1 = k then some p.2 else Cfg.lookup rest k from rfl,
          if_neg hp] at hsrc
      by_cases hfp : filter p.1
      · rw [if_pos hfp]; exact ih _ hnd.2 hsrc
      · rw [if_neg hfp]; exact ih _ hnd.2 hsrc

namespace BQMigrate

/-- Module level table of migrate-to-bq-v2-sink.py: the declared mapping
between BigQuery Legacy and Storage Write API configurations. -/
def legacy_to_storage_mapping : List (String × String) :=
  [("keyfile", "keyfile"),
   ("project", "project"),
   ("datasets", "datasets"),
   ("topics", "topics"),
   ("tasks.max", "tasks.max"),
   ("sanitize.topics", "sanitize.topics"),
   ("sanitize.field.names", "sanitize.field.names"),
   ("auto.update.schemas", "auto.update.schemas"),
   ("input.data.format", "input.data.format"),
   ("input.key.format", "input.key.format"),
   ("table.name.format", "topic2table.map"),
   ("bigquery.retry.count", "bigQueryRetry"),
   ("bigquery.thread.pool.size", "threadPoolSize"),
   ("buffer.count.records", "queueSize")]

/-- Default values for Storage Write API connector configurations
(module level storage_defaults). -/
def storage_defaults : List (String × Value) :=
  [("sanitize.field.names", Value.str "false"),
   ("sanitize.field.names.in.array", Value.str "false"),
   ("auto.update.schemas", Value.str "DISABLED")]

/-- Common configurations that should be preserved (module level
common_configs of the BigQuery script). -/
def common_configs : List String :=
  ["kafka.api.key",
   "kafka.api.secret",
   "kafka.service.account.id",
   "kafka.auth.mode",
   "kafka.endpoint",
   "kafka.region",
   "schema.registry.url",
   "schema.registry.basic.auth.user.info",
   "max.poll.interval.ms",
   "max.poll.records",
   "cloud.environment",
   "cloud.provider"]

/-- Configurations not supported in the V2 Storage Write API connector,
with the explanatory messages (module level UNSUPPORTED_CONFIGS dict). -/
def UNSUPPORTED_CONFIGS : List (String × String) :=
  [("allow.schema.unionization",
    "Schema unionization is not supported in V2 connector. This functionality is now part of the auto.update.schemas property, which handles schema evolution for both primitive and complex types (structs and arrays)."),
   ("all.bq.fields.nullable",
    "All BigQuery fields nullable setting is not supported in V2 connector. This controlled whether all fields were made nullable."),
   ("convert.double.special.values",
    "Double special values conversion is not supported in V2 connector. This handled +Infinity, -Infinity, and NaN conversions."),
   ("allow.bigquery.required.field.relaxation",
    "BigQuery required field relaxation is not supported in V2 connector. This allowed relaxing required field constraints.")]

/-- The config_mapping dict defined inside transform_legacy_to_storage.
Note that it differs from the module level legacy_to_storage_mapping. -/
def config_mapping : List (String × String) :=
  [("topics", "topics"),
   ("project", "project"),
   ("datasets", "datasets"),
   ("keyfile", "keyfile"),
   ("input.data.format", "input.data.format"),
   ("sanitize.topics", "sanitize.topics"),
   ("sanitize.field.names", "sanitize.field.names"),
   ("topic2table.map", "topic2table.map"),
   ("sanitize.field.names.in.array", "sanitize.field.names.in.array")]

/-- The keys excluded from the additional-configurations loop of
transform_legacy_to_storage by the literal list in its condition. -/
def reserved_structural_keys : List String :=
  ["name", "connector.class", "tasks.max", "authentication.method",
   "auto.update.schemas"]

/-- The condition of the additional-configurations loop of
transform_legacy_to_storage: the key is not in config_mapping, not in
common_configs, not in UNSUPPORTED_CONFIGS and not one of the reserved
structural keys. -/
def additional_config_filter (config_key : String) : Bool :=
  !((config_mapping.map Prod.fst).contains config_key)
    && !(common_configs.contains config_key)
    && !((UNSUPPORTED_CONFIGS.map Prod.fst).contains config_key)
    && !(reserved_structural_keys.contains config_key)

/-- The auto.update.schemas transformation block of
transform_legacy_to_storage. Calling lower() on a non-string value raises
an AttributeError in Python, modelled as the error case. -/
def applyAutoUpdateSchemas (legacy_config storage_config : Cfg) :
    Except String Cfg :=
  match Cfg.lookup legacy_config "auto.update.schemas" with
  | none => Except.ok storage_config
  | some (Value.int _) =>
      Except.error "AttributeError: int object has no attribute lower"
  | some (Value.str v1_value) =>
      if pyLower v1_value = "true" then
        Except.ok
          (Cfg.insert storage_config "auto.update.schemas"
            (Value.str "ADD NEW FIELDS"))
      else if pyLower v1_value = "false" then
        Except.ok
          (Cfg.insert storage_config "auto.update.schemas"
            (Value.str "DISABLED"))
      else
        Except.ok
          (Cfg.insert storage_config "auto.update.schemas"
            (Value.str "DISABLED"))

/-- The state touched by transform_legacy_to_storage: the source dict
legacy_config (which the function only reads) and the fresh dict
storage_config it builds. -/
structure BqState where
  legacy_config : Cfg
  storage_config : Cfg
deriving DecidableEq

/-- Embedding of transform_legacy_to_storage, statement by statement. Every
dict write targets storage_config; legacy_config is only read. Console
notices are not modelled. -/
def transform_legacy_to_storage_state (legacy_config : Cfg) :
    Except String BqState :=
  let storage_config : Cfg :=
    [("connector.class", Value.str "BigQueryStorageSink"),
     ("tasks.max", Cfg.getD legacy_config "tasks.max" (Value.int 1))]
  let storage_config :=
    if Cfg.containsKey legacy_config "keyfile" then
      Cfg.insert storage_config "authentication.method"
        (Value.str "Google cloud service account")
    else
      Cfg.insert storage_config "authentication.method"
        (Value.str "Google cloud service account")
  let storage_config := copyMapped legacy_config config_mapping storage_config
  match applyAutoUpdateSchemas legacy_config storage_config with
  | Except.error e =>
      Except.error
        ("Error transforming Legacy to Storage Write API configuration: " ++ e)
  | Except.ok storage_config =>
      let storage_config := copyCommon legacy_config common_configs storage_config
      let storage_config :=
        copyFiltered additional_config_filter legacy_config storage_config
      let storage_config := fillDefaults storage_defaults storage_config
      Except.ok { legacy_config := legacy_config, storage_config := storage_config }

/-- The returned dict of transform_legacy_to_storage. -/
def transform_legacy_to_storage (legacy_config : Cfg) : Except String Cfg :=
  (transform_legacy_to_storage_state legacy_config).map BqState.storage_config

/-- The defaults dict defined inside apply_defaults. -/
def defaults_table : List (String × Value) :=
  [("input.key.format", Value.str "BYTES"),
   ("sanitize.topics", Value.str "true"),
   ("sanitize.field.names", Value.str "false"),
   ("auto.update.schemas", Value.str "DISABLED"),
   ("topic2table.map", Value.str ""),
   ("topic2clustering.fields.map", Value.str "")]

/-- Embedding of apply_defaults. The unused user_inputs parameter of the
Python function is omitted. After filling the defaults the function derives
sanitize.field.names.in.array from the final value of sanitize.field.names;
str(b).lower() on the Python bool b yields the string true or false.
Calling lower() on a non-string value raises, modelled as the error case. -/
def apply_defaults (new_config : Cfg) : Except String Cfg :=
  match Cfg.lookup (fillDefaults defaults_table new_config)
      "sanitize.field.names" with
  | some (Value.str s) =>
      Except.ok
        (Cfg.insert (fillDefaults defaults_table new_config)
          "sanitize.field.names.in.array"
          (Value.str (if pyLower s = "true" then "true" else "false")))
  | some (Value.int _) =>
      Except.error "AttributeError: int object has no attribute lower"
  | none => Except.ok (fillDefaults defaults_table new_config)

end BQMigrate

namespace HttpMigrate

/-- The placeholder string standing in for scrubbed secret values
(module level SCRAPPED_PASSWORD_STRING of migrate-to-http-v2-sink.py). -/
def SCRAPPED_PASSWORD_STRING : String := "****************"

/-- Module level mapping between V1 and V2 configurations of
migrate-to-http-v2-sink.py. -/
def v1_to_v2_mapping : List (String × String) :=
  [("auth.type", "auth.type"),
   ("batch.json.as.array", "api1.batch.json.as.array"),
   ("batch.key.pattern", "api1.batch.key.pattern"),
   ("batch.max.size", "api1.max.batch.size"),
   ("batch.prefix", "api1.batch.prefix"),
   ("batch.separator", "api1.batch.separator"),
   ("batch.suffix", "api1.batch.suffix"),
   ("behavior.on.error", "behavior.on.error"),
   ("behavior.on.null.values", "api1.behavior.on.null.values"),
   ("connection.password", "connection.password"),
   ("connection.user", "connection.user"),
   ("header.separator", "api1.http.request.headers.separator"),
   ("headers", "api1.http.request.headers"),
   ("http.connect.timeout.ms", "api1.http.connect.timeout.ms"),
   ("http.request.timeout.ms", "api1.http.request.timeout.ms"),
   ("https.host.verifier.enabled", "https.host.verifier.enabled"),
   ("https.ssl.key.password", "https.ssl.key.password"),
   ("https.ssl.keystore.password", "https.ssl.keystore.password"),
   ("https.ssl.keystorefile", "https.ssl.keystorefile"),
   ("https.ssl.protocol", "https.ssl.protocol"),
   ("https.ssl.truststore.password", "https.ssl.truststore.password"),
   ("https.ssl.truststorefile", "https.ssl.truststorefile"),
   ("max.retries", "api1.max.retries"),
   ("oauth2.client.auth.mode", "oauth2.client.auth.mode"),
   ("oauth2.client.header.separator", "oauth2.client.header.separator"),
   ("oauth2.client.headers", "oauth2.client.headers"),
   ("oauth2.client.id", "oauth2.client.id"),
   ("oauth2.client.scope", "oauth2.client.scope"),
   ("oauth2.client.secret", "oauth2.client.secret"),
   ("oauth2.jwt.claimset", "oauth2.jwt.claimset"),
   ("oauth2.jwt.enabled", "oauth2.jwt.enabled"),
   ("oauth2.jwt.keystore.password", "oauth2.jwt.keystore.password"),
   ("oauth2.jwt.keystore.path", "oauth2.jwt.keystore.path"),
   ("oauth2.jwt.keystore.type", "oauth2.jwt.keystore.type"),
   ("oauth2.token.property", "oauth2.token.property"),
   ("oauth2.token.url", "oauth2.token.url"),
   ("regex.patterns", "api1.regex.patterns"),
   ("regex.replacements", "api1.regex.replacements"),
   ("regex.separator", "api1.regex.separator"),
   ("report.errors.as", "report.errors.as"),
   ("request.body.format", "api1.request.body.format"),
   ("request.method", "api1.http.request.method"),
   ("retry.backoff.ms", "api1.retry.backoff.ms"),
   ("retry.backoff.policy", "api1.retry.backoff.policy"),
   ("retry.on.status.codes", "api1.retry.on.status.codes"),
   ("sensitive.headers", "api1.http.request.sensitive.headers"),
   ("topics", "api1.topics")]

/-- Common configurations to be copied as is (module level common_configs of
the HTTP script). -/
def common_configs : List String :=
  ["input.data.format",
   "kafka.api.key",
   "kafka.api.secret",
   "kafka.auth.mode",
   "kafka.service.account.id",
   "max.poll.interval.ms",
   "max.poll.records",
   "name",
   "schema.context.name",
   "tasks.max",
   "topics"]

/-- The keys written structurally by transform_v1_to_v2 itself: the seed
entries of the v2_config dict literal plus the base url and name entries set
at the end. -/
def structural_keys : List String :=
  ["connector.class", "tasks.max", "apis.num", "api1.http.api.path",
   "http.api.base.url", "name"]

/-- Python truthiness of a configuration value, as used by the test
if not http_api_url: the empty string and the integer 0 are falsy. -/
def valueFalsy : Value → Bool
  | Value.str s => s = ""
  | Value.int n => n = 0

/-- The state touched by transform_v1_to_v2: the source dict v1_config
(which the function only reads) and the fresh dict v2_config it builds. -/
structure HttpState where
  v1_config : Cfg
  v2_config : Cfg
deriving DecidableEq

/-- The dict building statements of transform_v1_to_v2 for a url value that
is the string url and a name value that is the string v1_name: the v2_config
dict literal seeding connector.class, tasks.max (with v1_config.get default 1),
apis.num and the api path (the slash joined parts after the first three of
url.split on slash), then the v1_to_v2_mapping copy loop, then the
common_configs copy loop, then the http.api.base.url entry (the slash joined
first three parts) and the name entry (v1_name plus the _v2 suffix), set last. -/
def httpBuild (v1_config : Cfg) (url v1_name : String) : Cfg :=
  Cfg.insert
    (Cfg.insert
      (copyCommon v1_config common_configs
        (copyMapped v1_config v1_to_v2_mapping
          [("connector.class", Value.str "HttpSinkV2"),
           ("tasks.max", Cfg.getD v1_config "tasks.max" (Value.int 1)),
           ("apis.num", Value.str "1"),
           ("api1.http.api.path",
             Value.str ("/" ++ String.intercalate "/" ((pySplit url '/').drop 3)))]))
      "http.api.base.url"
      (Value.str (String.intercalate "/" ((pySplit url '/').take 3))))
    "name" (Value.str (v1_name ++ "_v2"))

/-- Embedding of transform_v1_to_v2. The url is read with v1_config.get with
default empty string; a falsy url raises; a non-string url makes the split
call raise and a non-string name makes the string concatenation raise in
Python, modelled as the error cases; otherwise the v2_config dict is built by
httpBuild. Every dict write targets v2_config; v1_config is only read. -/
def transform_v1_to_v2_state (v1_config : Cfg) : Except String HttpState :=
  if valueFalsy (Cfg.getD v1_config "http.api.url" (Value.str "")) then
    Except.error
      "Error transforming V1 to V2 configuration: Missing http.api.url in V1 configuration."
  else
    match Cfg.getD v1_config "http.api.url" (Value.str "") with
    | Value.int _ =>
        Except.error
          "Error transforming V1 to V2 configuration: AttributeError: int object has no attribute split"
    | Value.str url =>
        match Cfg.getD v1_config "name" (Value.str "") with
        | Value.int _ =>
            Except.error
              "Error transforming V1 to V2 configuration: TypeError: unsupported operand types"
        | Value.str v1_name =>
            Except.ok
              { v1_config := v1_config,
                v2_config := httpBuild v1_config url v1_name }

/-- The returned dict of transform_v1_to_v2. -/
def transform_v1_to_v2 (v1_config : Cfg) : Except String Cfg :=
  (transform_v1_to_v2_state v1_config).map HttpState.v2_config

/-- Embedding of create_v2_config. It transforms the V1 configuration and
then replaces every scrubbed placeholder value by an operator supplied value;
the interactive retry-until-nonempty prompt loop is abstracted by the inputs
oracle giving the accepted entry for each key. Any exception raised by the
transformation (or by the dead empty-dict branch) is caught, printed and
turned into a None return. -/
def create_v2_config (inputs : String → String) (v1_config : Cfg) :
    Option Cfg :=
  match transform_v1_to_v2 v1_config with
  | Except.error _ => none
  | Except.ok v2_config =>
      let v2_config :=
        v2_config.map
          (fun p =>
            if p.2 = Value.str SCRAPPED_PASSWORD_STRING then
              (p.1, Value.str (inputs p.1))
            else p)
      if v2_config.isEmpty then none else some v2_config

end HttpMigrate

/-- The process wide client state of both scripts: the auth_token and
last_poll_time globals. Authentication tokens returned by the remote service
are abstracted as distinct numbers; auth_count records how many
authentications have been performed and names the token obtained by the
latest one. -/
structure ClientState where
  auth_token : Nat
  last_poll_time : Int
  auth_count : Nat
deriving DecidableEq

/-- The four remote call functions sharing the token refresh preamble, in
both scripts. -/
inductive RemoteCall where
  | get_connector_config
  | get_connector_offsets
  | send_create_request
  | get_connector_status
deriving DecidableEq

/-- Embedding of the token refresh preamble executed at the top of each
remote call function: when more than 180 seconds have elapsed since
last_poll_time, a new auth token is obtained. Only get_connector_status also
resets last_poll_time to the current time; get_connector_config,
get_connector_offsets and send_create_request leave it unchanged. -/
def token_refresh_preamble (now : Int) (call : RemoteCall)
    (st : ClientState) : ClientState :=
  if now - st.last_poll_time > 180 then
    let st :=
      { st with auth_token := st.auth_count + 1, auth_count := st.auth_count + 1 }
    match call with
    | RemoteCall.get_connector_status => { st with last_poll_time := now }
    | _ => st
  else st

namespace BQMigrate

theorem applyAutoUpdateSchemas_of_none (legacy_config storage_config : Cfg)
    (h : Cfg.lookup legacy_config "auto.update.schemas" = none) :
    applyAutoUpdateSchemas legacy_config storage_config
      = Except.ok storage_config := by
  unfold applyAutoUpdateSchemas
  rw [h]

theorem applyAutoUpdateSchemas_of_str (legacy_config storage_config : Cfg)
    (s : String)
    (h : Cfg.lookup legacy_config "auto.update.schemas" = some (Value.str s)) :
    applyAutoUpdateSchemas legacy_config storage_config
      = Except.ok
          (Cfg.insert storage_config "auto.update.schemas"
            (Value.str (if pyLower s = "true" then "ADD NEW FIELDS"
                        else "DISABLED"))) := by
  unfold applyAutoUpdateSchemas
  rw [h]
  by_cases h1 : pyLower s = "true"
  · simp [h1]
  · by_cases h2 : pyLower s = "false" <;> simp [h1, h2]

theorem applyAutoUpdateSchemas_of_int (legacy_config storage_config : Cfg)
    (n : Int)
    (h : Cfg.lookup legacy_config "auto.update.schemas" = some (Value.int n)) :
    applyAutoUpdateSchemas legacy_config storage_config
      = Except.error "AttributeError: int object has no attribute lower" := by
  unfold applyAutoUpdateSchemas
  rw [h]

theorem applyAutoUpdateSchemas_lookup_ne (legacy_config storage_config mid : Cfg)
    (k : String)
    (hok : applyAutoUpdateSchemas legacy_config storage_config = Except.ok mid)
    (hk : k ≠ "auto.update.schemas") :
    Cfg.lookup mid k = Cfg.lookup storage_config k := by
  cases hl : Cfg.lookup legacy_config "auto.update.schemas" with
  | none =>
    rw [applyAutoUpdateSchemas_of_none _ _ hl] at hok
    rw [← Except.ok.inj hok]
  | some v =>
    cases v with
    | str s =>
      rw [applyAutoUpdateSchemas_of_str _ _ s hl] at hok
      rw [← Except.ok.inj hok]
      exact Cfg.lookup_insert_ne _ _ _ _ (Ne.symm hk)
    | int n =>
      rw [applyAutoUpdateSchemas_of_int _ _ n hl] at hok
      cases hok

/-- The seed dict of transform_legacy_to_storage after the
authentication.method assignment (whose two branches are identical). -/
def bqSeed (legacy_config : Cfg) : Cfg :=
  Cfg.insert
    [("connector.class", Value.str "BigQueryStorageSink"),
     ("tasks.max", Cfg.getD legacy_config "tasks.max" (Value.int 1))]
    "authentication.method" (Value.str "Google cloud service account")

theorem transform_state_ok_elim (legacy_config : Cfg) (st : BqState)
    (h : transform_legacy_to_storage_state legacy_config = Except.ok st) :
    ∃ mid,
      applyAutoUpdateSchemas legacy_config
        (copyMapped legacy_config config_mapping (bqSeed legacy_config))
        = Except.ok mid ∧
      st = { legacy_config := legacy_config,
             storage_config :=
               fillDefaults storage_defaults
                 (copyFiltered additional_config_filter legacy_config
                   (copyCommon legacy_config common_configs mid)) } := by
  unfold transform_legacy_to_storage_state at h
  simp only [ite_self] at h
  cases hau : applyAutoUpdateSchemas legacy_config
      (copyMapped legacy_config config_mapping (bqSeed legacy_config)) with
  | error e =>
    rw [show (Cfg.insert
          [("connector.class", Value.str "BigQueryStorageSink"),
           ("tasks.max", Cfg.getD legacy_config "tasks.max" (Value.int 1))]
          "authentication.method" (Value.str "Google cloud service account"))
        = bqSeed legacy_config from rfl, hau] at h
    cases h
  | ok mid =>
    rw [show (Cfg.insert
          [("connector.class", Value.str "BigQueryStorageSink"),
           ("tasks.max", Cfg.getD legacy_config "tasks.max" (Value.int 1))]
          "authentication.method" (Value.str "Google cloud service account"))
        = bqSeed legacy_config from rfl, hau] at h
    exact ⟨mid, rfl, (Except.ok.inj h).symm⟩

theorem transform_ok_elim (legacy_config out : Cfg)
    (h : transform_legacy_to_storage legacy_config = Except.ok out) :
    ∃ mid,
      applyAutoUpdateSchemas legacy_config
        (copyMapped legacy_config config_mapping (bqSeed legacy_config))
        = Except.ok mid ∧
      out = fillDefaults storage_defaults
              (copyFiltered additional_config_filter legacy_config
                (copyCommon legacy_config common_configs mid)) := by
  unfold transform_legacy_to_storage at h
  cases hst : transform_legacy_to_storage_state legacy_config with
  | error e => rw [hst] at h; cases h
  | ok st =>
    rw [hst] at h
    rcases transform_state_ok_elim legacy_config st hst with ⟨mid, hau, hsteq⟩
    refine ⟨mid, hau, ?_⟩
    have hout : st.storage_config = out := Except.ok.inj h
    rw [← hout, hsteq]

end BQMigrate

namespace HttpMigrate

theorem transform_v1_state_ok_elim (v1_config : Cfg) (st : HttpState)
    (h : transform_v1_to_v2_state v1_config = Except.ok st) :
    ∃ url v1_name,
      Cfg.getD v1_config "http.api.url" (Value.str "") = Value.str url ∧
      url ≠ "" ∧
      Cfg.getD v1_config "name" (Value.str "") = Value.str v1_name ∧
      st = { v1_config := v1_config,
             v2_config := httpBuild v1_config url v1_name } := by
  unfold transform_v1_to_v2_state at h
  cases hurl : Cfg.getD v1_config "http.api.url" (Value.str "") with
  | int n =>
    rw [hurl] at h
    by_cases hz : n = 0
    · rw [if_pos (by simp [valueFalsy, hz])] at h
      cases h
    · rw [if_neg (by simp [valueFalsy, hz])] at h
      cases h
  | str url =>
    rw [hurl] at h
    by_cases hz : url = ""
    · rw [if_pos (by simp [valueFalsy, hz])] at h
      cases h
    · rw [if_neg (by simp [valueFalsy, hz])] at h
      cases hname : Cfg.getD v1_config "name" (Value.str "") with
      | int m =>
        rw [hname] at h
        cases h
      | str v1_name =>
        rw [hname] at h
        exact ⟨url, v1_name, rfl, hz, rfl, (Except.ok.inj h).symm⟩

theorem transform_v1_ok_elim (v1_config out : Cfg)
    (h : transform_v1_to_v2 v1_config = Except.ok out) :
    ∃ url v1_name,
      Cfg.getD v1_config "http.api.url" (Value.str "") = Value.str url ∧
      url ≠ "" ∧
      Cfg.getD v1_config "name" (Value.str "") = Value.str v1_name ∧
      out = httpBuild v1_config url v1_name := by
  unfold transform_v1_to_v2 at h
  cases hst : transform_v1_to_v2_state v1_config with
  | error e => rw [hst] at h; cases h
  | ok st =>
    rw [hst] at h
    rcases transform_v1_state_ok_elim v1_config st hst with
      ⟨url, v1_name, h1, h2, h3, h4⟩
    refine ⟨url, v1_name, h1, h2, h3, ?_⟩
    have hout : st.v2_config = out := Except.ok.inj h
    rw [← hout, h4]

theorem transform_v1_state_error_of_url (v1_config : Cfg)
    (h : Cfg.lookup v1_config "http.api.url" = none ∨
         Cfg.lookup v1_config "http.api.url" = some (Value.str "")) :
    transform_v1_to_v2_state v1_config
      = Except.error
          "Error transforming V1 to V2 configuration: Missing http.api.url in V1 configuration." := by
  have hg : Cfg.getD v1_config "http.api.url" (Value.str "") = Value.str "" := by
    unfold Cfg.getD
    rcases h with h | h <;> rw [h] <;> rfl
  unfold transform_v1_to_v2_state
  rw [hg]
  rfl

theorem transform_v1_error_of_url (v1_config : Cfg)
    (h : Cfg.lookup v1_config "http.api.url" = none ∨
         Cfg.lookup v1_config "http.api.url" = some (Value.str "")) :
    transform_v1_to_v2 v1_config
      = Except.error
          "Error transforming V1 to V2 configuration: Missing http.api.url in V1 configuration." := by
  unfold transform_v1_to_v2
  rw [transform_v1_state_error_of_url v1_config h]
  rfl

end HttpMigrate

/-- Claim C1, evaluated at the failing input: with the last successful
authentication at time 0, a get_connector_config call at time 200 and another
at time 210 each trigger a re-authentication with a fresh token and never
reset last_poll_time, although the two calls are only 10 seconds apart; the
claim says a re-authentication resets the refresh timer, so the second call
would reuse the token of the first. Only get_connector_status resets
last_poll_time. -/
theorem C1_token_refresh_timer_not_reset_eval :
    token_refresh_preamble 200 RemoteCall.get_connector_config
        { auth_token := 0, last_poll_time := 0, auth_count := 0 }
      = { auth_token := 1, last_poll_time := 0, auth_count := 1 } ∧
    token_refresh_preamble 210 RemoteCall.get_connector_config
        { auth_token := 1, last_poll_time := 0, auth_count := 1 }
      = { auth_token := 2, last_poll_time := 0, auth_count := 2 } ∧
    token_refresh_preamble 200 RemoteCall.get_connector_status
        { auth_token := 0, last_poll_time := 0, auth_count := 0 }
      = { auth_token := 1, last_poll_time := 200, auth_count := 1 } := by
  exact ⟨rfl, rfl, rfl⟩

/-- Claim C2: for every legacy configuration, when
transform_legacy_to_storage returns a configuration, that configuration
contains no key of the UNSUPPORTED_CONFIGS set (allow.schema.unionization,
all.bq.fields.nullable, convert.double.special.values,
allow.bigquery.required.field.relaxation). -/
theorem C2_no_unsupported_keys_in_output
    (legacy_config out : Cfg)
    (h : BQMigrate.transform_legacy_to_storage legacy_config = Except.ok out)
    (k : String)
    (hk : k ∈ BQMigrate.UNSUPPORTED_CONFIGS.map Prod.fst) :
    Cfg.lookup out k = none := by
  rcases BQMigrate.transform_ok_elim legacy_config out h with ⟨mid, hau, hout⟩
  subst hout
  have hk4 : k = "allow.schema.unionization" ∨ k = "all.bq.fields.nullable"
      ∨ k = "convert.double.special.values"
      ∨ k = "allow.bigquery.required.field.relaxation" := by
    simpa [BQMigrate.UNSUPPORTED_CONFIGS] using hk
  rcases hk4 with rfl | rfl | rfl | rfl <;>
    (rw [fillDefaults_lookup_ne _ _ _ (by decide),
         copyFiltered_lookup_of_not_filter _ _ _ _ (by decide),
         copyCommon_lookup_ne _ _ _ _ (by decide),
         BQMigrate.applyAutoUpdateSchemas_lookup_ne _ _ _ _ hau (by decide),
         copyMapped_lookup_ne _ _ _ _ (by decide)]
     unfold BQMigrate.bqSeed
     rw [Cfg.lookup_insert_ne _ _ _ _ (by decide)]
     simp [Cfg.lookup])

def c2cfg : Cfg := [("allow.schema.unionization", Value.str "x")]

def c2out : Cfg :=
  [("connector.class", Value.str "BigQueryStorageSink"),
   ("tasks.max", Value.int 1),
   ("authentication.method", Value.str "Google cloud service account"),
   ("sanitize.field.names", Value.str "false"),
   ("sanitize.field.names.in.array", Value.str "false"),
   ("auto.update.schemas", Value.str "DISABLED")]

/-- Witness for claim C2 at a concrete input containing an unsupported key. -/
theorem C2_no_unsupported_keys_in_output_witness :
    Cfg.lookup c2out "allow.schema.unionization" = none :=
  C2_no_unsupported_keys_in_output c2cfg c2out (by rfl)
    "allow.schema.unionization" (by decide)

def c3cfg : Cfg := [("table.name.format", Value.str "x")]

def c3out : Cfg :=
  [("connector.class", Value.str "BigQueryStorageSink"),
   ("tasks.max", Value.int 1),
   ("authentication.method", Value.str "Google cloud service account"),
   ("table.name.format", Value.str "x"),
   ("sanitize.field.names", Value.str "false"),
   ("sanitize.field.names.in.array", Value.str "false"),
   ("auto.update.schemas", Value.str "DISABLED")]

/-- Claim C3, evaluated at the failing input: the module level
legacy_to_storage_mapping declares the rename table.name.format to
topic2table.map, but transform_legacy_to_storage uses its different inline
config_mapping table, so for the source containing table.name.format = x the
output has no topic2table.map entry and instead carries table.name.format
through unchanged. -/
theorem C3_declared_rename_not_applied_eval :
    ("table.name.format", "topic2table.map")
        ∈ BQMigrate.legacy_to_storage_mapping ∧
    BQMigrate.transform_legacy_to_storage c3cfg = Except.ok c3out ∧
    Cfg.lookup c3out "topic2table.map" = none ∧
    Cfg.lookup c3out "table.name.format" = some (Value.str "x") := by
  exact ⟨by decide, by rfl, by rfl, by rfl⟩

def c5intcfg : Cfg := [("auto.update.schemas", Value.int 1)]

/-- Counterexample to claim C5 as stated: for the SourceConfig whose
auto.update.schemas value is the integer 1 (an allowed SourceConfig value
kind, and in particular any other value than the strings true and false),
the BigQuery transform raises instead of defaulting to DISABLED, because
lower() is called on a non-string value. -/
theorem C5_counterexample_int_value_raises :
    BQMigrate.transform_legacy_to_storage c5intcfg
      = Except.error
          "Error transforming Legacy to Storage Write API configuration: AttributeError: int object has no attribute lower" := by
  rfl

/-- Claim C5 as amended: for every SourceConfig whose auto.update.schemas
value is a string, the transform never raises: it returns a configuration
whose auto.update.schemas is ADD NEW FIELDS when the value lowercases to
true and DISABLED otherwise (the false case and the warning fallback for
every other string); a non-string auto.update.schemas value makes the whole
transform fail with the wrapped AttributeError instead. -/
theorem C5_auto_update_schemas_conversion :
    (∀ (legacy_config : Cfg) (s : String),
      Cfg.lookup legacy_config "auto.update.schemas" = some (Value.str s) →
      ∃ out,
        BQMigrate.transform_legacy_to_storage legacy_config = Except.ok out ∧
        Cfg.lookup out "auto.update.schemas"
          = some (Value.str (if pyLower s = "true" then "ADD NEW FIELDS"
                             else "DISABLED"))) ∧
    (∀ (legacy_config : Cfg) (n : Int),
      Cfg.lookup legacy_config "auto.update.schemas" = some (Value.int n) →
      BQMigrate.transform_legacy_to_storage legacy_config
        = Except.error
            "Error transforming Legacy to Storage Write API configuration: AttributeError: int object has no attribute lower") := by
  constructor
  · intro legacy_config s hs
    have hau := BQMigrate.applyAutoUpdateSchemas_of_str legacy_config
      (copyMapped legacy_config BQMigrate.config_mapping
        (BQMigrate.bqSeed legacy_config)) s hs
    have hstate : BQMigrate.transform_legacy_to_storage_state legacy_config
        = Except.ok
            { legacy_config := legacy_config,
              storage_config :=
                fillDefaults BQMigrate.storage_defaults
                  (copyFiltered BQMigrate.additional_config_filter legacy_config
                    (copyCommon legacy_config BQMigrate.common_configs
                      (Cfg.insert
                        (copyMapped legacy_config BQMigrate.config_mapping
                          (BQMigrate.bqSeed legacy_config))
                        "auto.update.schemas"
                        (Value.str (if pyLower s = "true" then "ADD NEW FIELDS"
                                    else "DISABLED"))))) } := by
      unfold BQMigrate.transform_legacy_to_storage_state
      simp only [ite_self]
      rw [show (Cfg.insert
            [("connector.class", Value.str "BigQueryStorageSink"),
             ("tasks.max", Cfg.getD legacy_config "tasks.max" (Value.int 1))]
            "authentication.method" (Value.str "Google cloud service account"))
          = BQMigrate.bqSeed legacy_config from rfl, hau]
    have htr : BQMigrate.transform_legacy_to_storage legacy_config
        = Except.ok
            (fillDefaults BQMigrate.storage_defaults
              (copyFiltered BQMigrate.additional_config_filter legacy_config
                (copyCommon legacy_config BQMigrate.common_configs
                  (Cfg.insert
                    (copyMapped legacy_config BQMigrate.config_mapping
                      (BQMigrate.bqSeed legacy_config))
                    "auto.update.schemas"
                    (Value.str (if pyLower s = "true" then "ADD NEW FIELDS"
                                else "DISABLED")))))) := by
      unfold BQMigrate.transform_legacy_to_storage
      rw [hstate]
      rfl
    refine ⟨_, htr, ?_⟩
    have h1 : Cfg.lookup
        (copyCommon legacy_config BQMigrate.common_configs
          (Cfg.insert
            (copyMapped legacy_config BQMigrate.config_mapping
              (BQMigrate.bqSeed legacy_config))
            "auto.update.schemas"
            (Value.str (if pyLower s = "true" then "ADD NEW FIELDS"
                        else "DISABLED"))))
        "auto.update.schemas"
        = some (Value.str (if pyLower s = "true" then "ADD NEW FIELDS"
                           else "DISABLED")) := by
      rw [copyCommon_lookup_ne _ _ _ _ (by decide)]
      exact Cfg.lookup_insert_self _ _ _
    have h2 : Cfg.lookup
        (copyFiltered BQMigrate.additional_config_filter legacy_config
          (copyCommon legacy_config BQMigrate.common_configs
            (Cfg.insert
              (copyMapped legacy_config BQMigrate.config_mapping
                (BQMigrate.bqSeed legacy_config))
              "auto.update.schemas"
              (Value.str (if pyLower s = "true" then "ADD NEW FIELDS"
                          else "DISABLED")))))
        "auto.update.schemas"
        = some (Value.str (if pyLower s = "true" then "ADD NEW FIELDS"
                           else "DISABLED")) := by
      rw [copyFiltered_lookup_of_not_filter _ _ _ _ (by decide)]
      exact h1
    exact fillDefaults_lookup_of_some _ _ _ _ h2
  · intro legacy_config n hn
    have hstate : BQMigrate.transform_legacy_to_storage_state legacy_config
        = Except.error
            "Error transforming Legacy to Storage Write API configuration: AttributeError: int object has no attribute lower" := by
      unfold BQMigrate.transform_legacy_to_storage_state
      simp only [ite_self]
      rw [show (Cfg.insert
            [("connector.class", Value.str "BigQueryStorageSink"),
             ("tasks.max", Cfg.getD legacy_config "tasks.max" (Value.int 1))]
            "authentication.method" (Value.str "Google cloud service account"))
          = BQMigrate.bqSeed legacy_config from rfl,
          BQMigrate.applyAutoUpdateSchemas_of_int _ _ n hn]
      rfl
    unfold BQMigrate.transform_legacy_to_storage
    rw [hstate]
    rfl

def c5cfg : Cfg := [("auto.update.schemas", Value.str "true")]

def c5out : Cfg :=
  [("connector.class", Value.str "BigQueryStorageSink"),
   ("tasks.max", Value.int 1),
   ("authentication.method", Value.str "Google cloud service account"),
   ("auto.update.schemas", Value.str "ADD NEW FIELDS"),
   ("sanitize.field.names", Value.str "false"),
   ("sanitize.field.names.in.array", Value.str "false")]

def c5bcfg : Cfg := [("auto.update.schemas", Value.str "banana")]

def c5bout : Cfg :=
  [("connector.class", Value.str "BigQueryStorageSink"),
   ("tasks.max", Value.int 1),
   ("authentication.method", Value.str "Google cloud service account"),
   ("auto.update.schemas", Value.str "DISABLED"),
   ("sanitize.field.names", Value.str "false"),
   ("sanitize.field.names.in.array", Value.str "false")]

/-- Witness for the amended claim C5 at two concrete inputs: with
auto.update.schemas = true the transform succeeds with ADD NEW FIELDS, and
with the unrecognized string banana it still succeeds, falling back to
DISABLED rather than raising. -/
theorem C5_auto_update_schemas_conversion_witness :
    (BQMigrate.transform_legacy_to_storage c5cfg = Except.ok c5out ∧
     Cfg.lookup c5out "auto.update.schemas"
       = some (Value.str "ADD NEW FIELDS")) ∧
    (BQMigrate.transform_legacy_to_storage c5bcfg = Except.ok c5bout ∧
     Cfg.lookup c5bout "auto.update.schemas"
       = some (Value.str "DISABLED")) := by
  constructor
  · obtain ⟨out1, ho1, hl1⟩ :=
      C5_auto_update_schemas_conversion.1 c5cfg "true" (by rfl)
    have he1 : out1 = c5out := by
      have hc : BQMigrate.transform_legacy_to_storage c5cfg
          = Except.ok c5out := by rfl
      rw [hc] at ho1
      exact (Except.ok.inj ho1).symm
    rw [he1] at hl1
    exact ⟨by rfl, hl1⟩
  · obtain ⟨out2, ho2, hl2⟩ :=
      C5_auto_update_schemas_conversion.1 c5bcfg "banana" (by rfl)
    have he2 : out2 = c5bout := by
      have hc : BQMigrate.transform_legacy_to_storage c5bcfg
          = Except.ok c5bout := by rfl
      rw [hc] at ho2
      exact (Except.ok.inj ho2).symm
    rw [he2] at hl2
    exact ⟨by rfl, hl2⟩

theorem http_url_extraction (cfg out : Cfg) (u : String)
    (h : HttpMigrate.transform_v1_to_v2 cfg = Except.ok out)
    (hu : Cfg.lookup cfg "http.api.url" = some (Value.str u)) :
    Cfg.lookup out "http.api.base.url"
      = some (Value.str (String.intercalate "/" ((pySplit u '/').take 3))) ∧
    Cfg.lookup out "api1.http.api.path"
      = some (Value.str ("/" ++ String.intercalate "/" ((pySplit u '/').drop 3))) := by
  rcases HttpMigrate.transform_v1_ok_elim cfg out h with
    ⟨url, v1_name, hg, hne, hnm, hout⟩
  have hueq : url = u := by
    unfold Cfg.getD at hg
    rw [hu] at hg
    exact (Value.str.inj hg).symm
  subst hueq
  subst hout
  constructor
  · unfold HttpMigrate.httpBuild
    rw [Cfg.lookup_insert_ne _ _ _ _ (by decide)]
    exact Cfg.lookup_insert_self _ _ _
  · unfold HttpMigrate.httpBuild
    rw [Cfg.lookup_insert_ne _ _ _ _ (by decide),
        Cfg.lookup_insert_ne _ _ _ _ (by decide),
        copyCommon_lookup_ne _ _ _ _ (by decide),
        copyMapped_lookup_ne _ _ _ _ (by decide)]
    simp [Cfg.lookup]

/-- Claim C6: for the HTTP transform, a source whose http.api.url is
https://host/a/b/c yields http.api.base.url = https://host and
api1.http.api.path = /a/b/c; a url with no path segments (https://host)
yields api path /; and a source whose http.api.url is absent or the empty
string makes the transform fail with the wrapped missing-url error instead
of returning a configuration. -/
theorem C6_url_extraction_and_missing_url_error :
    (∀ cfg out, HttpMigrate.transform_v1_to_v2 cfg = Except.ok out →
       Cfg.lookup cfg "http.api.url" = some (Value.str "https://host/a/b/c") →
       Cfg.lookup out "http.api.base.url" = some (Value.str "https://host") ∧
       Cfg.lookup out "api1.http.api.path" = some (Value.str "/a/b/c")) ∧
    (∀ cfg out, HttpMigrate.transform_v1_to_v2 cfg = Except.ok out →
       Cfg.lookup cfg "http.api.url" = some (Value.str "https://host") →
       Cfg.lookup out "api1.http.api.path" = some (Value.str "/")) ∧
    (∀ cfg, (Cfg.lookup cfg "http.api.url" = none ∨
             Cfg.lookup cfg "http.api.url" = some (Value.str "")) →
       HttpMigrate.transform_v1_to_v2 cfg
         = Except.error
             "Error transforming V1 to V2 configuration: Missing http.api.url in V1 configuration.") := by
  refine ⟨?_, ?_, ?_⟩
  · intro cfg out h hu
    exact http_url_extraction cfg out "https://host/a/b/c" h hu
  · intro cfg out h hu
    exact (http_url_extraction cfg out "https://host" h hu).2
  · intro cfg h
    exact HttpMigrate.transform_v1_error_of_url cfg h

def c6cfg : Cfg := [("http.api.url", Value.str "https://host/a/b/c")]

def c6out : Cfg :=
  [("connector.class", Value.str "HttpSinkV2"),
   ("tasks.max", Value.int 1),
   ("apis.num", Value.str "1"),
   ("api1.http.api.path", Value.str "/a/b/c"),
   ("http.api.base.url", Value.str "https://host"),
   ("name", Value.str "_v2")]

def c6bcfg : Cfg := [("http.api.url", Value.str "https://host")]

def c6bout : Cfg :=
  [("connector.class", Value.str "HttpSinkV2"),
   ("tasks.max", Value.int 1),
   ("apis.num", Value.str "1"),
   ("api1.http.api.path", Value.str "/"),
   ("http.api.base.url", Value.str "https://host"),
   ("name", Value.str "_v2")]

/-- Witness for claim C6 at the concrete urls of the claim and at the empty
source configuration. -/
theorem C6_url_extraction_and_missing_url_error_witness :
    (Cfg.lookup c6out "http.api.base.url" = some (Value.str "https://host") ∧
     Cfg.lookup c6out "api1.http.api.path" = some (Value.str "/a/b/c")) ∧
    Cfg.lookup c6bout "api1.http.api.path" = some (Value.str "/") ∧
    HttpMigrate.transform_v1_to_v2 []
      = Except.error
          "Error transforming V1 to V2 configuration: Missing http.api.url in V1 configuration." :=
  ⟨C6_url_extraction_and_missing_url_error.1 c6cfg c6out (by rfl) (by rfl),
   C6_url_extraction_and_missing_url_error.2.1 c6bcfg c6bout (by rfl) (by rfl),
   C6_url_extraction_and_missing_url_error.2.2 [] (Or.inl rfl)⟩

/-- Claim C10: whenever transform_v1_to_v2 raises, create_v2_config catches
the exception and returns None instead of propagating it; in particular a
source configuration with no http.api.url key yields None for every choice
of operator inputs. -/
theorem C10_create_v2_config_returns_none_on_error :
    ∀ (inputs : String → String) (v1_config : Cfg),
      ((HttpMigrate.transform_v1_to_v2 v1_config).isOk = false →
        HttpMigrate.create_v2_config inputs v1_config = none) ∧
      (Cfg.lookup v1_config "http.api.url" = none →
        HttpMigrate.create_v2_config inputs v1_config = none) := by
  intro inputs v1_config
  constructor
  · intro hb
    unfold HttpMigrate.create_v2_config
    cases ht : HttpMigrate.transform_v1_to_v2 v1_config with
    | error e => rfl
    | ok v2 =>
      rw [ht] at hb
      simp [Except.isOk, Except.toBool] at hb
  · intro hm
    unfold HttpMigrate.create_v2_config
    rw [HttpMigrate.transform_v1_error_of_url v1_config (Or.inl hm)]

/-- Witness for claim C10 at the empty source configuration. -/
theorem C10_create_v2_config_returns_none_on_error_witness :
    HttpMigrate.create_v2_config (fun _ => "x") [] = none :=
  (C10_create_v2_config_returns_none_on_error (fun _ => "x") []).2 rfl

theorem contains_eq_false_of_not_mem (l : List String) (k : String)
    (h : k ∉ l) : l.contains k = false := by
  simp_all

namespace BQMigrate

theorem apply_defaults_ok_elim (c c' : Cfg)
    (h : apply_defaults c = Except.ok c') :
    ∃ s, Cfg.lookup (fillDefaults defaults_table c) "sanitize.field.names"
           = some (Value.str s) ∧
         c' = Cfg.insert (fillDefaults defaults_table c)
                "sanitize.field.names.in.array"
                (Value.str (if pyLower s = "true" then "true" else "false")) := by
  unfold apply_defaults at h
  cases hd : Cfg.lookup (fillDefaults defaults_table c) "sanitize.field.names" with
  | none =>
    have hs := fillDefaults_isSome defaults_table c "sanitize.field.names"
        (Value.str "false") (by decide) (by decide)
    rw [hd] at hs
    cases hs
  | some v =>
    cases v with
    | int n => rw [hd] at h; cases h
    | str s =>
      rw [hd] at h
      exact ⟨s, rfl, (Except.ok.inj h).symm⟩

end BQMigrate

/-- Claim C7: after the BigQuery transform followed by apply_defaults, the
final sanitize.field.names value is a string s, and
sanitize.field.names.in.array is present and equals true exactly when s
lowercases to true and false otherwise, mirroring the final post-mapping
value of the sibling flag. -/
theorem C7_derived_key_mirrors_final_value (legacy_config out : Cfg)
    (h : (BQMigrate.transform_legacy_to_storage legacy_config).bind
            BQMigrate.apply_defaults = Except.ok out) :
    match Cfg.lookup out "sanitize.field.names" with
    | some (Value.str s) =>
        Cfg.lookup out "sanitize.field.names.in.array"
          = some (Value.str (if pyLower s = "true" then "true" else "false"))
    | _ => False := by
  cases ht : BQMigrate.transform_legacy_to_storage legacy_config with
  | error e => rw [ht] at h; cases h
  | ok t =>
    rw [ht] at h
    have h2 : BQMigrate.apply_defaults t = Except.ok out := h
    rcases BQMigrate.apply_defaults_ok_elim t out h2 with ⟨s, hs, hout⟩
    have hl : Cfg.lookup out "sanitize.field.names" = some (Value.str s) := by
      rw [hout, Cfg.lookup_insert_ne _ _ _ _ (by decide)]
      exact hs
    rw [hl]
    show Cfg.lookup out "sanitize.field.names.in.array"
      = some (Value.str (if pyLower s = "true" then "true" else "false"))
    rw [hout]
    exact Cfg.lookup_insert_self _ _ _

def c7cfg : Cfg := [("sanitize.field.names", Value.str "TRUE")]

def c7out : Cfg :=
  [("connector.class", Value.str "BigQueryStorageSink"),
   ("tasks.max", Value.int 1),
   ("authentication.method", Value.str "Google cloud service account"),
   ("sanitize.field.names", Value.str "TRUE"),
   ("sanitize.field.names.in.array", Value.str "true"),
   ("auto.update.schemas", Value.str "DISABLED"),
   ("input.key.format", Value.str "BYTES"),
   ("sanitize.topics", Value.str "true"),
   ("topic2table.map", Value.str ""),
   ("topic2clustering.fields.map", Value.str "")]

/-- Witness for claim C7 at a source whose sanitize.field.names is the
uppercase string TRUE: the derived key mirrors it as true. -/
theorem C7_derived_key_mirrors_final_value_witness :
    Cfg.lookup c7out "sanitize.field.names.in.array"
      = some (Value.str "true") :=
  C7_derived_key_mirrors_final_value c7cfg c7out (by rfl)

/-- Claim C8: a defaults table entry is applied by apply_defaults only when
its key is absent (present values are never overwritten, absent keys receive
exactly the table default), and apply_defaults is idempotent. -/
theorem C8_defaults_only_if_absent_and_idempotent :
    (∀ (c c' : Cfg) (k : String) (d v : Value),
      BQMigrate.apply_defaults c = Except.ok c' →
      (k, d) ∈ BQMigrate.defaults_table →
      Cfg.lookup c k = some v →
      Cfg.lookup c' k = some v) ∧
    (∀ (c c' : Cfg) (k : String) (d : Value),
      BQMigrate.apply_defaults c = Except.ok c' →
      (k, d) ∈ BQMigrate.defaults_table →
      Cfg.lookup c k = none →
      Cfg.lookup c' k = some d) ∧
    (∀ c : Cfg,
      (BQMigrate.apply_defaults c).bind BQMigrate.apply_defaults
        = BQMigrate.apply_defaults c) := by
  have hne2 : ∀ p ∈ BQMigrate.defaults_table,
      p.1 ≠ "sanitize.field.names.in.array" := by decide
  refine ⟨?_, ?_, ?_⟩
  · intro c c' k d v h hmem hv
    rcases BQMigrate.apply_defaults_ok_elim c c' h with ⟨s, hs, hout⟩
    rw [hout,
        Cfg.lookup_insert_ne _ _ _ _ (Ne.symm (hne2 (k, d) hmem))]
    exact fillDefaults_lookup_of_some _ _ _ _ hv
  · intro c c' k d h hmem hv
    rcases BQMigrate.apply_defaults_ok_elim c c' h with ⟨s, hs, hout⟩
    rw [hout,
        Cfg.lookup_insert_ne _ _ _ _ (Ne.symm (hne2 (k, d) hmem))]
    exact fillDefaults_lookup_absent _ _ _ _ (by decide) hmem hv
  · intro c
    cases ha : BQMigrate.apply_defaults c with
    | error e => rfl
    | ok c' =>
      show BQMigrate.apply_defaults c' = Except.ok c'
      rcases BQMigrate.apply_defaults_ok_elim c c' ha with ⟨s, hs, hc'⟩
      have hfill : fillDefaults BQMigrate.defaults_table c' = c' := by
        apply fillDefaults_eq_self
        intro p hp
        rw [hc']
        apply Cfg.containsKey_insert_of
        exact fillDefaults_isSome BQMigrate.defaults_table c p.1 p.2
          (by decide) hp
      have hl : Cfg.lookup c' "sanitize.field.names" = some (Value.str s) := by
        rw [hc', Cfg.lookup_insert_ne _ _ _ _ (by decide)]
        exact hs
      unfold BQMigrate.apply_defaults
      rw [hfill, hl]
      show Except.ok
          (Cfg.insert c' "sanitize.field.names.in.array"
            (Value.str (if pyLower s = "true" then "true" else "false")))
        = Except.ok c'
      rw [hc', Cfg.insert_insert_same]

def c8cfg : Cfg :=
  [("input.key.format", Value.str "KEEP"), ("custom.key", Value.str "y")]

def c8out : Cfg :=
  [("input.key.format", Value.str "KEEP"),
   ("custom.key", Value.str "y"),
   ("sanitize.topics", Value.str "true"),
   ("sanitize.field.names", Value.str "false"),
   ("auto.update.schemas", Value.str "DISABLED"),
   ("topic2table.map", Value.str ""),
   ("topic2clustering.fields.map", Value.str ""),
   ("sanitize.field.names.in.array", Value.str "false")]

/-- Witness for claim C8: a concrete configuration with a present defaults
key keeps its value, an absent defaults key receives the default, and the
idempotence instance holds. -/
theorem C8_defaults_only_if_absent_and_idempotent_witness :
    Cfg.lookup c8out "input.key.format" = some (Value.str "KEEP") ∧
    Cfg.lookup c8out "sanitize.topics" = some (Value.str "true") ∧
    (BQMigrate.apply_defaults c8cfg).bind BQMigrate.apply_defaults
      = BQMigrate.apply_defaults c8cfg :=
  ⟨C8_defaults_only_if_absent_and_idempotent.1 c8cfg c8out "input.key.format"
      (Value.str "BYTES") (Value.str "KEEP") (by rfl) (by decide) (by rfl),
   C8_defaults_only_if_absent_and_idempotent.2.1 c8cfg c8out "sanitize.topics"
      (Value.str "true") (by rfl) (by decide) (by rfl),
   C8_defaults_only_if_absent_and_idempotent.2.2 c8cfg⟩

/-- Claim C9: neither transform mutates its source configuration: for both
variants, when the transformation succeeds the legacy/v1 configuration in
the final state is exactly the input, every dict write having targeted the
freshly built storage/v2 configuration. Object identity of the returned
dict is outside a value level model; the fresh construction from the seed
literal is what the state embedding exhibits. -/
theorem C9_transform_never_mutates_source :
    (∀ (legacy_config : Cfg) (st : BQMigrate.BqState),
      BQMigrate.transform_legacy_to_storage_state legacy_config
        = Except.ok st →
      st.legacy_config = legacy_config) ∧
    (∀ (v1_config : Cfg) (st : HttpMigrate.HttpState),
      HttpMigrate.transform_v1_to_v2_state v1_config = Except.ok st →
      st.v1_config = v1_config) := by
  constructor
  · intro legacy_config st h
    rcases BQMigrate.transform_state_ok_elim legacy_config st h with
      ⟨mid, hau, hst⟩
    rw [hst]
  · intro v1_config st h
    rcases HttpMigrate.transform_v1_state_ok_elim v1_config st h with
      ⟨url, v1_name, h1, h2, h3, hst⟩
    rw [hst]

/-- Witness for claim C9 at concrete inputs for both variants. -/
theorem C9_transform_never_mutates_source_witness :
    (BQMigrate.BqState.mk c2cfg c2out).legacy_config = c2cfg ∧
    (HttpMigrate.HttpState.mk c6cfg c6out).v1_config = c6cfg :=
  ⟨C9_transform_never_mutates_source.1 c2cfg ⟨c2cfg, c2out⟩ (by rfl),
   C9_transform_never_mutates_source.2 c6cfg ⟨c6cfg, c6out⟩ (by rfl)⟩

theorem config_mapping_pair_of_mem (k : String)
    (h : (BQMigrate.config_mapping.map Prod.fst).contains k = true) :
    (k, k) ∈ BQMigrate.config_mapping := by
  have hmem : k ∈ BQMigrate.config_mapping.map Prod.fst := by simp_all
  simp [BQMigrate.config_mapping] at hmem
  rcases hmem with rfl | rfl | rfl | rfl | rfl | rfl | rfl | rfl | rfl <;>
    decide

def c4cfg : Cfg :=
  [("http.api.url", Value.str "https://h/p"),
   ("future.unknown.key", Value.str "v")]

def c4out : Cfg :=
  [("connector.class", Value.str "HttpSinkV2"),
   ("tasks.max", Value.int 1),
   ("apis.num", Value.str "1"),
   ("api1.http.api.path", Value.str "/p"),
   ("http.api.base.url", Value.str "https://h"),
   ("name", Value.str "_v2")]

/-- Counterexample to claim C4 as stated: in the HTTP variant, the source key
future.unknown.key (present, not in the mapping domain, not in the common
set, not in the unsupported set, not structural) does not appear in the
output of transform_v1_to_v2 at all: the HTTP transform has no
forward-compatibility passthrough loop. -/
theorem C4_counterexample_http_drops_unknown_key :
    Cfg.lookup c4cfg "future.unknown.key" = some (Value.str "v") ∧
    "future.unknown.key" ∉ HttpMigrate.v1_to_v2_mapping.map Prod.fst ∧
    "future.unknown.key" ∉ HttpMigrate.common_configs ∧
    "future.unknown.key" ∉ BQMigrate.UNSUPPORTED_CONFIGS.map Prod.fst ∧
    "future.unknown.key" ∉ HttpMigrate.structural_keys ∧
    HttpMigrate.transform_v1_to_v2 c4cfg = Except.ok c4out ∧
    Cfg.lookup c4out "future.unknown.key" = none := by
  exact ⟨by rfl, by decide, by decide, by decide, by decide, by rfl, by rfl⟩

/-- Claim C4 as amended: the forward-compatibility passthrough holds for the
BigQuery variant: every source key outside the declared mapping domain, the
common set, the unsupported set and the reserved structural keys appears
unchanged in the output of transform_legacy_to_storage. The HTTP variant has
no passthrough: every output key of transform_v1_to_v2 comes from the
mapping targets, the common set or the structural keys, so any other key is
absent from the output. -/
theorem C4_passthrough_bq_only :
    (∀ (legacy_config out : Cfg) (k : String) (v : Value),
      (legacy_config.map Prod.fst).Nodup →
      BQMigrate.transform_legacy_to_storage legacy_config = Except.ok out →
      Cfg.lookup legacy_config k = some v →
      k ∉ BQMigrate.legacy_to_storage_mapping.map Prod.fst →
      k ∉ BQMigrate.common_configs →
      k ∉ BQMigrate.UNSUPPORTED_CONFIGS.map Prod.fst →
      k ∉ BQMigrate.reserved_structural_keys →
      Cfg.lookup out k = some v) ∧
    (∀ (v1_config out : Cfg) (k : String),
      HttpMigrate.transform_v1_to_v2 v1_config = Except.ok out →
      k ∉ HttpMigrate.v1_to_v2_mapping.map Prod.snd →
      k ∉ HttpMigrate.common_configs →
      k ∉ HttpMigrate.structural_keys →
      Cfg.lookup out k = none) := by
  constructor
  · intro legacy_config out k v hnd h hv hmap hcom hunsup hres
    rcases BQMigrate.transform_ok_elim legacy_config out h with ⟨mid, hau, hout⟩
    subst hout
    have hne_auto : k ≠ "auto.update.schemas" :=
      fun he => hres (by rw [he]; decide)
    cases hm : (BQMigrate.config_mapping.map Prod.fst).contains k with
    | true =>
      have hpair := config_mapping_pair_of_mem k hm
      have h1 : Cfg.lookup
          (copyMapped legacy_config BQMigrate.config_mapping
            (BQMigrate.bqSeed legacy_config)) k = some v :=
        copyMapped_lookup_pair _ _ _ k k v (by decide) hpair hv
      have h2 : Cfg.lookup mid k = some v := by
        rw [BQMigrate.applyAutoUpdateSchemas_lookup_ne _ _ _ _ hau hne_auto]
        exact h1
      have h3 : Cfg.lookup
          (copyCommon legacy_config BQMigrate.common_configs mid) k
          = some v := by
        rw [copyCommon_lookup_ne _ _ _ _ hcom]
        exact h2
      have hff : BQMigrate.additional_config_filter k = false := by
        unfold BQMigrate.additional_config_filter
        rw [hm]
        rfl
      have h4 : Cfg.lookup
          (copyFiltered BQMigrate.additional_config_filter legacy_config
            (copyCommon legacy_config BQMigrate.common_configs mid)) k
          = some v := by
        rw [copyFiltered_lookup_of_not_filter _ _ _ _ hff]
        exact h3
      exact fillDefaults_lookup_of_some _ _ _ _ h4
    | false =>
      have hf : BQMigrate.additional_config_filter k = true := by
        unfold BQMigrate.additional_config_filter
        rw [hm, contains_eq_false_of_not_mem _ _ hcom,
            contains_eq_false_of_not_mem _ _ hunsup,
            contains_eq_false_of_not_mem _ _ hres]
        rfl
      have h4 : Cfg.lookup
          (copyFiltered BQMigrate.additional_config_filter legacy_config
            (copyCommon legacy_config BQMigrate.common_configs mid)) k
          = some v :=
        copyFiltered_lookup_set _ _ _ _ _ hnd hv hf
      exact fillDefaults_lookup_of_some _ _ _ _ h4
  · intro v1_config out k h hmapT hcom hstruct
    rcases HttpMigrate.transform_v1_ok_elim v1_config out h with
      ⟨url, v1_name, hg, hne, hnm, hout⟩
    subst hout
    have hnename : ("name" : String) ≠ k :=
      fun he => hstruct (by rw [← he]; decide)
    have hnebase : ("http.api.base.url" : String) ≠ k :=
      fun he => hstruct (by rw [← he]; decide)
    have h1 : ("connector.class" : String) ≠ k :=
      fun he => hstruct (by rw [← he]; decide)
    have h2 : ("tasks.max" : String) ≠ k :=
      fun he => hstruct (by rw [← he]; decide)
    have h3 : ("apis.num" : String) ≠ k :=
      fun he => hstruct (by rw [← he]; decide)
    have h4 : ("api1.http.api.path" : String) ≠ k :=
      fun he => hstruct (by rw [← he]; decide)
    unfold HttpMigrate.httpBuild
    rw [Cfg.lookup_insert_ne _ _ _ _ hnename,
        Cfg.lookup_insert_ne _ _ _ _ hnebase,
        copyCommon_lookup_ne _ _ _ _ hcom,
        copyMapped_lookup_ne _ _ _ _
          (fun p hp he =>
            hmapT (by rw [← he]; exact List.mem_map_of_mem Prod.snd hp))]
    simp [Cfg.lookup, h1, h2, h3, h4]

def c4bqcfg : Cfg := [("future.unknown.key", Value.str "v")]

def c4bqout : Cfg :=
  [("connector.class", Value.str "BigQueryStorageSink"),
   ("tasks.max", Value.int 1),
   ("authentication.method", Value.str "Google cloud service account"),
   ("future.unknown.key", Value.str "v"),
   ("sanitize.field.names", Value.str "false"),
   ("sanitize.field.names.in.array", Value.str "false"),
   ("auto.update.schemas", Value.str "DISABLED")]

/-- Witness for the amended claim C4 at the concrete unknown key for both
variants. -/
theorem C4_passthrough_bq_only_witness :
    Cfg.lookup c4bqout "future.unknown.key" = some (Value.str "v") ∧
    Cfg.lookup c4out "future.unknown.key" = none :=
  ⟨C4_passthrough_bq_only.1 c4bqcfg c4bqout "future.unknown.key"
      (Value.str "v") (by decide) (by rfl) (by rfl) (by decide) (by decide)
      (by decide) (by decide),
   C4_passthrough_bq_only.2 c4cfg c4out "future.unknown.key" (by rfl)
      (by decide) (by decide) (by decide)⟩
